import Mathlib

/-!
Verification of the MultiACC-Twich-View launcher core (src/main.py).

The Python class TwitchLauncher is shallowly embedded: each method that a
claim touches becomes a pure Lean function over an explicit state record.
Machine integers are Nat/Int (Python ints are unbounded); time.time()
timestamps are modelled as Int ticks; fallible calls into the OS backends
(process terminate, window close, Chrome spawn) are modelled by explicit
failure oracles or Option results, with the try/except structure of the
source made explicit via Except.
-/

/-- A monitor rectangle as returned by get_screen_resolution. -/
structure Monitor where
  width : Nat
  height : Nat
  x : Int
  y : Int
deriving DecidableEq, Repr

/-- A stored grid, the cols/rows pair persisted inside a Layout record. -/
structure Grid where
  cols : Nat
  rows : Nat
deriving DecidableEq, Repr

/-- Nearest integer to the real square root of n: the value of the Python
expression round(num_windows ** 0.5) in calculate_grid, create_new_layout
and edit_layout. For a natural n the real square root is never exactly
half-integral, so the bankers tie rule of Python round never fires and the
result is the unique k minimising the distance to the square root, namely
Nat.sqrt n when 4n is below (2 Nat.sqrt n + 1)^2 and Nat.sqrt n + 1
otherwise. -/
def roundSqrt (n : Nat) : Nat :=
  if 4 * n < (2 * Nat.sqrt n + 1) ^ 2 then Nat.sqrt n else Nat.sqrt n + 1

/-- The cols/rows computation shared by TwitchLauncher.calculate_grid
(src/main.py lines 292 to 294) and the layout grid in create_new_layout:
cols = max(1, round(num_windows ** 0.5));
rows = max(1, (num_windows + cols - 1) // cols). -/
def compute_grid (num_windows : Nat) : Nat × Nat :=
  let cols := max 1 (roundSqrt num_windows)
  (cols, max 1 ((num_windows + cols - 1) / cols))

/-- TwitchLauncher.calculate_grid: grid dimensions, cell size by floor
division, and the origin offset of the first monitor. -/
def calculate_grid (num_windows : Nat) (monitor : Monitor) :
    Nat × Nat × Nat × Nat × Int × Int :=
  let cols := max 1 (roundSqrt num_windows)
  let rows := max 1 ((num_windows + cols - 1) / cols)
  (cols, rows, monitor.width / cols, monitor.height / rows, monitor.x, monitor.y)

/-- The grid record stored by create_new_layout and edit_layout
(src/main.py lines 1447, 1448 and 1458 to 1461). -/
def layoutGrid (num_windows : Nat) : Grid :=
  let cols := max 1 (roundSqrt num_windows)
  { cols := cols, rows := max 1 ((num_windows + cols - 1) / cols) }

/-- Cell size used by arrange_windows_with_layout (src/main.py lines 1689
and 1690): integer floor division of the monitor size by the grid. -/
def cellSize (monitor : Monitor) (g : Grid) : Nat × Nat :=
  (monitor.width / g.cols, monitor.height / g.rows)

/-- Top left corner of slot i under arrange_windows_with_layout
(src/main.py lines 1696 to 1702): col = i % cols, row = i // cols,
position = monitor origin + (col * cell width, row * cell height). -/
def slotPosition (monitor : Monitor) (g : Grid) (i : Nat) : Int × Int :=
  let win_width := monitor.width / g.cols
  let win_height := monitor.height / g.rows
  let col := i % g.cols
  let row := i / g.cols
  (monitor.x + ((col * win_width : Nat) : Int),
   monitor.y + ((row * win_height : Nat) : Int))

/-- The two shared handle lists of TwitchLauncher: self.processes and
self.windows. Handles are opaque and modelled as naturals. -/
structure Session where
  processes : List Nat
  windows : List Nat
deriving DecidableEq, Repr

/-- One loop body of close_windows: try: handle.terminate() (or
handle.close()) except: pass. fail = true models the call raising; the
bare except absorbs the exception, so the body always returns ok. -/
def tryExceptPass (fail : Bool) : Except String Unit :=
  match (if fail then Except.error "terminate raised" else Except.ok ()) with
  | Except.error _ => Except.ok ()
  | Except.ok _ => Except.ok ()

/-- The close-all loop of close_windows (count = None): iterates the
handles, propagating any exception that escaped a body (none can, since
every body is wrapped in try/except pass). -/
def closeLoop (fail : Nat → Bool) : List Nat → Except String Unit
  | [] => Except.ok ()
  | h :: t =>
    match tryExceptPass (fail h) with
    | Except.error e => Except.error e
    | Except.ok _ => closeLoop fail t

/-- close_windows with count = None (src/main.py lines 521 to 538):
terminate every tracked process and close every tracked window, each under
try/except pass, then assign both lists to []. An uncaught exception would
abort before the assignments; the error branches record that control flow.
pfail and wfail are the oracles saying which terminate or close calls
raise. -/
def close_windows_all (pfail wfail : Nat → Bool) (s : Session) :
    Except String Session :=
  match closeLoop pfail s.processes with
  | Except.error e => Except.error e
  | Except.ok _ =>
    match closeLoop wfail s.windows with
    | Except.error e => Except.error e
    | Except.ok _ => Except.ok { processes := [], windows := [] }

/-- j iterations of list.pop(): remove the last element j times. -/
def popLoop (l : List Nat) : Nat → List Nat
  | 0 => l
  | j + 1 => popLoop l.dropLast j

/-- close_windows with an explicit count (src/main.py lines 539 to 557):
count is clamped to min(count, len(processes)); that many processes are
popped from the tail (the pop precedes the terminate call inside the try,
and a raising terminate is absorbed, so the removal always happens); then
min(count, len(windows)) windows are popped from the tail likewise. -/
def close_windows_count (k : Nat) (s : Session) : Session :=
  let count := min k s.processes.length
  { processes := popLoop s.processes count,
    windows := popLoop s.windows (min count s.windows.length) }

/-- A persisted Profile record (the fields the claims touch). -/
structure ProfileRec where
  name : String
  description : String
  num_windows : Nat
  chrome_profiles : List String
  streamer : String
  quality : String
deriving DecidableEq, Repr

/-- A persisted Layout record (the fields the claims touch). -/
structure LayoutRec where
  name : String
  description : String
  monitor : Monitor
  num_windows : Nat
  grid : Grid
deriving DecidableEq, Repr

/-- The JSON object in settings.json. A field holds none when the key is
absent from the file (save_settings writes current_profile_id and
active_layout only when the in-memory value is truthy). -/
structure SettingsDict where
  num_windows : Option Nat
  streamer : Option String
  quality : Option String
  memory_limit : Option (Option Nat)
  current_profile_id : Option String
  active_layout : Option String
deriving DecidableEq, Repr

/-- The launcher state visible to the configuration-store operations:
the two record dictionaries (insertion ordered, unique keys), the two
activation references, the scalar settings, the on-disk settings file
(none when the file does not exist) and the ids having a record file on
disk. -/
structure LauncherState where
  profiles : List (String × ProfileRec)
  monitor_layouts : List (String × LayoutRec)
  current_profile : Option String
  active_layout : Option String
  num_windows : Nat
  streamer : String
  quality : String
  memory_limit : Option Nat
  settings_disk : Option SettingsDict
  profile_files : List String
  layout_files : List String
deriving DecidableEq, Repr

/-- Python truthiness of an optional string: None and the empty string
are falsy. -/
def truthy : Option String → Bool
  | none => false
  | some s => !s.isEmpty

/-- TwitchLauncher.save_settings (src/main.py lines 121 to 142): writes
the scalar settings and, only when truthy, the current_profile_id and
active_layout keys. -/
def save_settings (st : LauncherState) : LauncherState :=
  { st with settings_disk := some (SettingsDict.mk
      (some st.num_windows)
      (some st.streamer)
      (some st.quality)
      (some st.memory_limit)
      (if truthy st.current_profile then st.current_profile else none)
      (if truthy st.active_layout then st.active_layout else none)) }

/-- TwitchLauncher.delete_profile (src/main.py lines 1030 to 1059), the
user-confirmed path: unlink the record file, remove the dictionary entry,
and when the deleted profile is the current one, clear current_profile and
call save_settings. Returns the success flag and the new state. -/
def delete_profile (st : LauncherState) (pid : String) : Bool × LauncherState :=
  if pid ∈ st.profiles.map Prod.fst then
    let st1 : LauncherState :=
      { st with profile_files := st.profile_files.erase pid,
                profiles := st.profiles.filter (fun e => e.1 != pid) }
    if st1.current_profile = some pid then
      (true, save_settings { st1 with current_profile := none })
    else (true, st1)
  else (false, st)

/-- TwitchLauncher.delete_layout (src/main.py lines 1566 to 1595), the
user-confirmed path: mirror image of delete_profile for layouts and the
active_layout reference. -/
def delete_layout (st : LauncherState) (lid : String) : Bool × LauncherState :=
  if lid ∈ st.monitor_layouts.map Prod.fst then
    let st1 : LauncherState :=
      { st with layout_files := st.layout_files.erase lid,
                monitor_layouts := st.monitor_layouts.filter (fun e => e.1 != lid) }
    if st1.active_layout = some lid then
      (true, save_settings { st1 with active_layout := none })
    else (true, st1)
  else (false, st)

/-- What load_settings finds on disk: no file, a file whose JSON fails to
parse, or a parsed settings object. -/
inductive SettingsFileState where
  | missing
  | invalidJson
  | parsed (d : SettingsDict)
deriving DecidableEq, Repr

/-- The fixed default record returned by load_settings (src/main.py lines
114 to 119). -/
def default_settings : SettingsDict :=
  { num_windows := some 4,
    streamer := some "",
    quality := some "auto",
    memory_limit := some none,
    current_profile_id := none,
    active_layout := none }

/-- TwitchLauncher.load_settings (src/main.py lines 96 to 119): returns
the settings dictionary and the (possibly updated) current_profile and
active_layout references. On a parsed file, current_profile is taken from
the file only when the id is a key of the loaded profiles dictionary; on a
missing file or a JSON decode error the fixed defaults are returned and
the references are left as they were. -/
def load_settings (file : SettingsFileState) (profileIds : List String)
    (cur act : Option String) : SettingsDict × Option String × Option String :=
  match file with
  | SettingsFileState.missing => (default_settings, cur, act)
  | SettingsFileState.invalidJson => (default_settings, cur, act)
  | SettingsFileState.parsed d =>
    let cur2 := match d.current_profile_id with
      | some p => if p ∈ profileIds then some p else cur
      | none => cur
    let act2 := match d.active_layout with
      | some l => some l
      | none => act
    (d, cur2, act2)

/-- One entry of self.window_states (src/main.py lines 804 to 809):
profile label, url, the active flag and the last_check timestamp. -/
structure WindowState where
  profile : String
  url : String
  active : Bool
  last_check : Int
deriving DecidableEq, Repr

/-- The debounce period of _monitor_crashes (src/main.py line 1224). -/
def check_interval : Int := 5

/-- The crash predicate of _monitor_crashes (src/main.py lines 1232 and
1243): a slot is declared crashed, and recovery attempted, exactly when it
is active, no current window title matches its label, and more than
check_interval has elapsed since last_check. -/
def declares_crashed (now : Int) (wexists : Bool) (st : WindowState) : Bool :=
  st.active && !wexists && decide (now - st.last_check > check_interval)

/-- The window-state update of one slot in one pass of _monitor_crashes
(src/main.py lines 1231 to 1273). wexists is the window-title match
result; spawnRes is some handle when the recovery Popen succeeds and none
when it raises, in which case the except branch sets active to False. On
success last_check is set to the current time. -/
def monitorSlotState (now : Int) (wexists : Bool) (spawnRes : Option Nat)
    (st : WindowState) : WindowState :=
  if st.active = false then st
  else if wexists = false ∧ now - st.last_check > check_interval then
    match spawnRes with
    | some _ => { st with last_check := now }
    | none => { st with active := false }
  else st

/-- The process-list update of one slot in one pass of _monitor_crashes
(src/main.py lines 1255 to 1259): on successful recovery the new handle
replaces the entry at the slot index, or is appended when the index is
past the end of the list. -/
def monitorSlotProcs (now : Int) (wexists : Bool) (spawnRes : Option Nat)
    (idx : Nat) (st : WindowState) (procs : List Nat) : List Nat :=
  if st.active = false then procs
  else if wexists = false ∧ now - st.last_check > check_interval then
    match spawnRes with
    | some p => if idx < procs.length then procs.set idx p else procs ++ [p]
    | none => procs
  else procs

/-- The state read and written by _monitor_crashes: the slot dictionary
and the process-handle list. -/
structure MonState where
  states : List (Nat × WindowState)
  processes : List Nat
deriving DecidableEq, Repr

/-- One full pass of the _monitor_crashes loop over
list(self.window_states.items()): each slot state is updated by
monitorSlotState (the update of a slot depends only on that slot), and
the process list is threaded through the per-slot updates in iteration
order. wex and spawn are the per-slot window-match and spawn oracles. -/
def monitorPass (now : Int) (wex : Nat → Bool) (spawn : Nat → Option Nat)
    (s : MonState) : MonState :=
  { states := s.states.map
      (fun e => (e.1, monitorSlotState now (wex e.1) (spawn e.1) e.2)),
    processes := s.states.foldl
      (fun ps e => monitorSlotProcs now (wex e.1) (spawn e.1) e.1 e.2 ps)
      s.processes }

/-- The default Chrome profile naming scheme Profile 1 .. Profile n,
as generated in create_new_profile, edit_profile and activate_profile. -/
def defaultProfiles (n : Nat) : List String :=
  (List.range' 1 n).map (fun i => "Profile " ++ toString i)

/-- The chrome_profiles list stored by edit_profile when the user keeps
the existing per-window profiles (src/main.py lines 978 to 981): when the
kept list is shorter than the new num_windows it is padded with the
default names Profile (len+1) .. Profile num_windows; it is never
truncated. -/
def editKeepLabels (old : List String) (num_windows : Nat) : List String :=
  old ++ (List.range' (old.length + 1) (num_windows - old.length)).map
    (fun i => "Profile " ++ toString i)

/-- The chrome_profiles list consumed by activate_profile (src/main.py
lines 744 to 748): the default naming is substituted only when the stored
list is empty (Python falsy); a non-empty list is used as is. -/
def activateLabels (p : ProfileRec) : List String :=
  if p.chrome_profiles.isEmpty then defaultProfiles p.num_windows
  else p.chrome_profiles

/-- Evaluation helper: compute_grid at a concrete input, given the integer
square root bracketing of that input. -/
lemma compute_grid_eval {n a c r : Nat} (hs : a * a ≤ n ∧ n < (a + 1) * (a + 1))
    (hc : max 1 (if 4 * n < (2 * a + 1) ^ 2 then a else a + 1) = c)
    (hr : max 1 ((n + c - 1) / c) = r) : compute_grid n = (c, r) := by
  have hsq : Nat.sqrt n = a := (Nat.eq_sqrt.mpr hs).symm
  simp [compute_grid, roundSqrt, hsq, hc, hr]

/-- The layout grid of create_new_layout stores exactly the pair computed
by the shared cols/rows formula. -/
lemma layoutGrid_eq (n : Nat) :
    layoutGrid n = Grid.mk (compute_grid n).1 (compute_grid n).2 := rfl

/-- The cols/rows part of compute_grid for positive input: rows is exact
ceiling division and the grid covers the windows. -/
lemma compute_grid_props (m : Nat) (hm : 0 < m) :
    (compute_grid m).2 = (m + (compute_grid m).1 - 1) / (compute_grid m).1 ∧
    m ≤ (compute_grid m).1 * (compute_grid m).2 := by
  have hcpos : 0 < max 1 (roundSqrt m) :=
    Nat.lt_of_lt_of_le Nat.zero_lt_one (Nat.le_max_left 1 _)
  have hq1 : 1 ≤ (m + max 1 (roundSqrt m) - 1) / max 1 (roundSqrt m) :=
    (Nat.one_le_div_iff hcpos).mpr (by omega)
  have h2 : (compute_grid m).2
      = (m + (compute_grid m).1 - 1) / (compute_grid m).1 :=
    Nat.max_eq_right hq1
  refine ⟨h2, ?_⟩
  rw [h2]
  have hc1 : (compute_grid m).1 = max 1 (roundSqrt m) := rfl
  rw [hc1]
  have hdm := Nat.div_add_mod (m + max 1 (roundSqrt m) - 1) (max 1 (roundSqrt m))
  have hmlt : (m + max 1 (roundSqrt m) - 1) % max 1 (roundSqrt m)
      < max 1 (roundSqrt m) := Nat.mod_lt _ hcpos
  generalize hq : (m + max 1 (roundSqrt m) - 1) / max 1 (roundSqrt m) = q at hdm ⊢
  generalize hrr : (m + max 1 (roundSqrt m) - 1) % max 1 (roundSqrt m) = r at hdm hmlt
  generalize hcq : max 1 (roundSqrt m) * q = t at hdm ⊢
  omega

/-- C1 counterexample: the claim asserts compute_grid(5) = (3, 2), with
cols = ceil(sqrt 5) = 3; the code computes cols = round(sqrt 5) = 2 and
rows = 3, so the stated example (and the ceiling formula for cols) is
false on the code. -/
theorem C1_compute_grid_cex :
    compute_grid 5 = (2, 3) ∧ compute_grid 5 ≠ (3, 2) := by
  have h := compute_grid_eval (n := 5) (a := 2) (c := 2) (r := 3)
    (by decide) (by decide) (by decide)
  exact ⟨h, by rw [h]; decide⟩

/-- C1 (amended): for every window_count n > 0 the grid computation is a
pure total function returning (cols, rows) with
cols = max(1, round(sqrt n)) (nearest integer, not ceiling) and
rows = ceil(n / cols); the result always satisfies cols * rows >= n; the
concrete values are compute_grid(4)=(2,2), compute_grid(5)=(2,3),
compute_grid(1)=(1,1), compute_grid(7)=(3,3). -/
theorem C1_compute_grid_amended (n : Nat) (h : 0 < n) :
    (compute_grid n).1 = max 1 (roundSqrt n) ∧
    (compute_grid n).2 = (n + (compute_grid n).1 - 1) / (compute_grid n).1 ∧
    n ≤ (compute_grid n).1 * (compute_grid n).2 ∧
    compute_grid 4 = (2, 2) ∧ compute_grid 5 = (2, 3) ∧
    compute_grid 1 = (1, 1) ∧ compute_grid 7 = (3, 3) := by
  refine ⟨rfl, (compute_grid_props n h).1, (compute_grid_props n h).2,
    ?_, ?_, ?_, ?_⟩
  · exact compute_grid_eval (a := 2) (by decide) (by decide) (by decide)
  · exact compute_grid_eval (a := 2) (by decide) (by decide) (by decide)
  · exact compute_grid_eval (a := 1) (by decide) (by decide) (by decide)
  · exact compute_grid_eval (a := 2) (by decide) (by decide) (by decide)

/-- C1 witness: the amended theorem applied at n = 5. -/
theorem C1_compute_grid_amended_witness :
    0 < 5 ∧
    ((compute_grid 5).1 = max 1 (roundSqrt 5) ∧
     (compute_grid 5).2 = (5 + (compute_grid 5).1 - 1) / (compute_grid 5).1 ∧
     5 ≤ (compute_grid 5).1 * (compute_grid 5).2 ∧
     compute_grid 4 = (2, 2) ∧ compute_grid 5 = (2, 3) ∧
     compute_grid 1 = (1, 1) ∧ compute_grid 7 = (3, 3)) :=
  ⟨by decide, C1_compute_grid_amended 5 (by decide)⟩

/-- C2 counterexample: for window_count 6 the stored grid is
{cols 2, rows 3} (round(sqrt 6) = 2), not {cols 3, rows 2}; hence the cell
size on a 1920x1080 monitor is not (640, 540) and slot 5 is not at
(1280, 540). -/
theorem C2_layout_cex :
    layoutGrid 6 = Grid.mk 2 3 ∧ layoutGrid 6 ≠ Grid.mk 3 2 ∧
    cellSize (Monitor.mk 1920 1080 0 0) (layoutGrid 6) ≠ (640, 540) ∧
    slotPosition (Monitor.mk 1920 1080 0 0) (layoutGrid 6) 5 ≠ (1280, 540) := by
  have h6 : compute_grid 6 = (2, 3) :=
    compute_grid_eval (a := 2) (by decide) (by decide) (by decide)
  have hg : layoutGrid 6 = Grid.mk 2 3 := by rw [layoutGrid_eq, h6]
  exact ⟨hg, by rw [hg]; decide, by rw [hg]; decide, by rw [hg]; decide⟩

/-- C2 (amended): a Layout with window_count 6 on monitor
{1920, 1080, 0, 0} stores grid {cols 2, rows 3}; the floor-division cell
size is (960, 360); under the row-major fill col = i mod cols,
row = i div cols, slot 5 has its top-left corner at (960, 720). -/
theorem C2_layout_amended :
    layoutGrid 6 = Grid.mk 2 3 ∧
    cellSize (Monitor.mk 1920 1080 0 0) (layoutGrid 6) = (960, 360) ∧
    slotPosition (Monitor.mk 1920 1080 0 0) (layoutGrid 6) 5 = (960, 720) := by
  have h6 : compute_grid 6 = (2, 3) :=
    compute_grid_eval (a := 2) (by decide) (by decide) (by decide)
  have hg : layoutGrid 6 = Grid.mk 2 3 := by rw [layoutGrid_eq, h6]
  exact ⟨hg, by rw [hg]; decide, by rw [hg]; decide⟩

/-- j pops from the tail leave exactly the first length - j elements. -/
lemma popLoop_eq_take (j : Nat) (l : List Nat) :
    popLoop l j = l.take (l.length - j) := by
  induction j generalizing l with
  | zero => simp [popLoop]
  | succ j ih =>
    simp only [popLoop]
    rw [ih, List.dropLast_eq_take, List.take_take, List.length_take]
    congr 1
    omega

/-- C3: for every session with m tracked processes and every requested
count k > 0, close_windows(k) removes exactly min(k, m) processes, always
from the tail: the survivors are precisely the first m - min(k, m)
entries, in order, and the removed ones are the trailing suffix; the
window list is shortened from its tail by min(min(k, m), len(windows))
likewise. -/
theorem C3_terminate_count (k : Nat) (hk : 0 < k) (s : Session) :
    (close_windows_count k s).processes
      = s.processes.take (s.processes.length - min k s.processes.length) ∧
    (close_windows_count k s).processes.length
      = s.processes.length - min k s.processes.length ∧
    s.processes
      = (close_windows_count k s).processes
        ++ s.processes.drop (s.processes.length - min k s.processes.length) ∧
    (close_windows_count k s).windows
      = s.windows.take
          (s.windows.length - min (min k s.processes.length) s.windows.length) := by
  have hp : (close_windows_count k s).processes
      = s.processes.take (s.processes.length - min k s.processes.length) :=
    popLoop_eq_take _ _
  have hw : (close_windows_count k s).windows
      = s.windows.take
          (s.windows.length - min (min k s.processes.length) s.windows.length) :=
    popLoop_eq_take _ _
  refine ⟨hp, ?_, ?_, hw⟩
  · rw [hp, List.length_take]; omega
  · rw [hp]; exact (List.take_append_drop _ _).symm

/-- C3 witness: closing 2 of a session holding 3 processes and 2 windows. -/
theorem C3_terminate_count_witness :
    0 < 2 ∧
    ((close_windows_count 2 (Session.mk [10, 11, 12] [20, 21])).processes
       = ([10, 11, 12] : List Nat).take
           (([10, 11, 12] : List Nat).length
             - min 2 ([10, 11, 12] : List Nat).length) ∧
     (close_windows_count 2 (Session.mk [10, 11, 12] [20, 21])).processes.length
       = ([10, 11, 12] : List Nat).length - min 2 ([10, 11, 12] : List Nat).length ∧
     ([10, 11, 12] : List Nat)
       = (close_windows_count 2 (Session.mk [10, 11, 12] [20, 21])).processes
         ++ ([10, 11, 12] : List Nat).drop
             (([10, 11, 12] : List Nat).length
               - min 2 ([10, 11, 12] : List Nat).length) ∧
     (close_windows_count 2 (Session.mk [10, 11, 12] [20, 21])).windows
       = ([20, 21] : List Nat).take
           (([20, 21] : List Nat).length
             - min (min 2 ([10, 11, 12] : List Nat).length)
                 ([20, 21] : List Nat).length)) :=
  ⟨by decide, C3_terminate_count 2 (by decide) (Session.mk [10, 11, 12] [20, 21])⟩

/-- Every body of the close loop absorbs its exception, so the loop always
finishes cleanly. -/
lemma closeLoop_ok (fail : Nat → Bool) (l : List Nat) :
    closeLoop fail l = Except.ok () := by
  induction l with
  | nil => rfl
  | cons h t ih =>
    simp only [closeLoop, tryExceptPass]
    cases fail h <;> simp [ih]

/-- close_windows with no count never propagates an error and always ends
with both tracked lists empty, whatever terminate or close calls raise. -/
lemma close_windows_all_ok (pfail wfail : Nat → Bool) (s : Session) :
    close_windows_all pfail wfail s = Except.ok (Session.mk [] []) := by
  simp [close_windows_all, closeLoop_ok]

/-- C7: terminate is idempotent. If a close pass returned state s2 (so the
session is already closed), a second close pass on s2, under any failure
behaviour of the process-terminate and window-close paths, raises no error
and returns s2 unchanged; moreover its outcome is identical to the first
pass, so the absorbed errors from either path never influence the result. -/
theorem C7_terminate_idempotent (pf wf pf2 wf2 : Nat → Bool) (s s2 : Session)
    (h : close_windows_all pf wf s = Except.ok s2) :
    close_windows_all pf2 wf2 s2 = Except.ok s2 ∧
    close_windows_all pf2 wf2 s2 = close_windows_all pf wf s := by
  have h1 := close_windows_all_ok pf wf s
  rw [h] at h1
  have hs2 : s2 = Session.mk [] [] := by
    injection h1.symm with h2
    exact h2.symm
  subst hs2
  exact ⟨close_windows_all_ok pf2 wf2 _, by rw [close_windows_all_ok, h]⟩

/-- C7 witness: a second close on the already-closed session, with every
terminate call raising, returns the same empty session without error. -/
theorem C7_terminate_idempotent_witness :
    close_windows_all (fun _ => true) (fun _ => true) (Session.mk [] [])
      = Except.ok (Session.mk [] []) ∧
    close_windows_all (fun _ => true) (fun _ => true) (Session.mk [] [])
      = close_windows_all (fun _ => false) (fun _ => true)
          (Session.mk [10, 11] [20]) :=
  C7_terminate_idempotent (fun _ => false) (fun _ => true)
    (fun _ => true) (fun _ => true) (Session.mk [10, 11] [20])
    (Session.mk [] []) rfl

/-- C10: terminate_all (close_windows with no count) always leaves both
the process list and the window list empty, and raises nothing, whatever
subset of the per-handle terminate and close calls raise: every tracked
handle is dropped regardless of per-handle failures. -/
theorem C10_close_all_empties (pfail wfail : Nat → Bool) (s : Session) :
    close_windows_all pfail wfail s = Except.ok (Session.mk [] []) :=
  close_windows_all_ok pfail wfail s

/-- Sample profile record used by concrete witnesses. -/
def sampleProfile : ProfileRec :=
  ProfileRec.mk "Stream4" "" 4
    ["Profile 1", "Profile 2", "Profile 3", "Profile 4"] "" "auto"

/-- Sample layout record used by concrete witnesses. -/
def sampleLayout : LayoutRec :=
  LayoutRec.mk "L1" "" (Monitor.mk 1920 1080 0 0) 6 (layoutGrid 6)

/-- Sample launcher state: profile p1 is current, layout l9 (not stored)
is marked active. -/
def sampleState : LauncherState :=
  { profiles := [("p1", sampleProfile)],
    monitor_layouts := [("l1", sampleLayout)],
    current_profile := some "p1",
    active_layout := some "l9",
    num_windows := 4,
    streamer := "",
    quality := "auto",
    memory_limit := none,
    settings_disk := none,
    profile_files := ["p1"],
    layout_files := ["l1"] }

/-- Sample launcher state: profile p9 (not stored) is current, layout l1
is active. -/
def sampleState2 : LauncherState :=
  { sampleState with current_profile := some "p9", active_layout := some "l1" }

/-- C4: deleting the currently active Profile clears current_profile and
immediately persists a settings record whose current_profile_id key is
absent, so no dangling reference survives the save; deleting a non-active
Profile leaves both activation references and the on-disk settings
untouched; and symmetrically for Layouts and active_layout. -/
theorem C4_delete_active_clears (st : LauncherState) (pid lid : String) :
    (pid ∈ st.profiles.map Prod.fst → st.current_profile = some pid →
      (delete_profile st pid).2.current_profile = none ∧
      ∃ d, (delete_profile st pid).2.settings_disk = some d ∧
        d.current_profile_id = none) ∧
    (pid ∈ st.profiles.map Prod.fst → st.current_profile ≠ some pid →
      (delete_profile st pid).2.current_profile = st.current_profile ∧
      (delete_profile st pid).2.active_layout = st.active_layout ∧
      (delete_profile st pid).2.settings_disk = st.settings_disk) ∧
    (lid ∈ st.monitor_layouts.map Prod.fst → st.active_layout = some lid →
      (delete_layout st lid).2.active_layout = none ∧
      ∃ d, (delete_layout st lid).2.settings_disk = some d ∧
        d.active_layout = none) ∧
    (lid ∈ st.monitor_layouts.map Prod.fst → st.active_layout ≠ some lid →
      (delete_layout st lid).2.active_layout = st.active_layout ∧
      (delete_layout st lid).2.current_profile = st.current_profile ∧
      (delete_layout st lid).2.settings_disk = st.settings_disk) := by
  refine ⟨?_, ?_, ?_, ?_⟩
  · intro hmem hcur
    simp only [delete_profile, if_pos hmem, hcur, if_pos rfl]
    exact ⟨rfl, ⟨_, rfl, rfl⟩⟩
  · intro hmem hcur
    simp only [delete_profile, if_pos hmem, if_neg hcur]
    refine ⟨?_, ?_, ?_⟩ <;> trivial
  · intro hmem hact
    simp only [delete_layout, if_pos hmem, hact, if_pos rfl]
    exact ⟨rfl, ⟨_, rfl, rfl⟩⟩
  · intro hmem hact
    simp only [delete_layout, if_pos hmem, if_neg hact]
    refine ⟨?_, ?_, ?_⟩ <;> trivial

/-- C4 witness: the four cases of the theorem at concrete states. -/
theorem C4_delete_active_clears_witness :
    ((delete_profile sampleState "p1").2.current_profile = none ∧
     ∃ d, (delete_profile sampleState "p1").2.settings_disk = some d ∧
       d.current_profile_id = none) ∧
    ((delete_profile sampleState2 "p1").2.current_profile
        = sampleState2.current_profile ∧
     (delete_profile sampleState2 "p1").2.active_layout
        = sampleState2.active_layout ∧
     (delete_profile sampleState2 "p1").2.settings_disk
        = sampleState2.settings_disk) ∧
    ((delete_layout sampleState2 "l1").2.active_layout = none ∧
     ∃ d, (delete_layout sampleState2 "l1").2.settings_disk = some d ∧
       d.active_layout = none) ∧
    ((delete_layout sampleState "l1").2.active_layout
        = sampleState.active_layout ∧
     (delete_layout sampleState "l1").2.current_profile
        = sampleState.current_profile ∧
     (delete_layout sampleState "l1").2.settings_disk
        = sampleState.settings_disk) :=
  ⟨(C4_delete_active_clears sampleState "p1" "lx").1 (by decide) rfl,
   (C4_delete_active_clears sampleState2 "p1" "lx").2.1 (by decide) (by decide),
   (C4_delete_active_clears sampleState2 "px" "l1").2.2.1 (by decide) rfl,
   (C4_delete_active_clears sampleState "px" "l1").2.2.2 (by decide) (by decide)⟩

/-- C5: the liveness check never declares a slot dead before
check_interval has elapsed since last_check. For every slot, even one
whose window is unmatched on this pass, if now - last_check is at most
check_interval, the crash predicate is false, the slot state is left
unchanged and no recovery touches the process list. -/
theorem C5_debounce (now : Int) (wexists : Bool) (spawnRes : Option Nat)
    (idx : Nat) (st : WindowState) (procs : List Nat)
    (h : now - st.last_check ≤ check_interval) :
    declares_crashed now wexists st = false ∧
    monitorSlotState now wexists spawnRes st = st ∧
    monitorSlotProcs now wexists spawnRes idx st procs = procs := by
  have hng : ¬ (now - st.last_check > check_interval) := not_lt.mpr h
  refine ⟨?_, ?_, ?_⟩
  · simp [declares_crashed, hng]
  · simp [monitorSlotState, hng]
  · simp [monitorSlotProcs, hng]

/-- C5 witness: an unmatched active slot checked 3 ticks after
last_check is not declared dead. -/
theorem C5_debounce_witness :
    (3 : Int) - (WindowState.mk "Profile 1" "u" true 0).last_check
      ≤ check_interval ∧
    (declares_crashed 3 false (WindowState.mk "Profile 1" "u" true 0) = false ∧
     monitorSlotState 3 false none (WindowState.mk "Profile 1" "u" true 0)
       = WindowState.mk "Profile 1" "u" true 0 ∧
     monitorSlotProcs 3 false none 0
       (WindowState.mk "Profile 1" "u" true 0) [7] = [7]) :=
  ⟨by decide,
   C5_debounce 3 false none 0 (WindowState.mk "Profile 1" "u" true 0) [7]
     (by decide)⟩

/-- C6: recovery of a crashed slot. When the slot is inactive the
supervision loop leaves its state and the process list untouched (so a
slot marked dead after a failed recovery is never retried: the activity
flag is never raised back by the loop); when a crash is detected and the
spawn fails the slot is marked inactive; when the spawn succeeds the slot
keeps alive with last_check set to now, and the new handle replaces the
process entry at the slot index or is appended when the index is past the
end; and an inactive slot entry survives every full pass unchanged. -/
theorem C6_recovery (now : Int) (wexists : Bool) (spawnRes : Option Nat)
    (idx : Nat) (st : WindowState) (procs : List Nat)
    (wex : Nat → Bool) (spawn : Nat → Option Nat) (s : MonState) :
    (st.active = false →
      monitorSlotState now wexists spawnRes st = st ∧
      monitorSlotProcs now wexists spawnRes idx st procs = procs) ∧
    ((monitorSlotState now wexists spawnRes st).active = true →
      st.active = true) ∧
    (st.active = true → wexists = false →
      now - st.last_check > check_interval → spawnRes = none →
      (monitorSlotState now wexists spawnRes st).active = false) ∧
    (∀ p : Nat, st.active = true → wexists = false →
      now - st.last_check > check_interval → spawnRes = some p →
      monitorSlotState now wexists spawnRes st = { st with last_check := now } ∧
      monitorSlotProcs now wexists spawnRes idx st procs
        = (if idx < procs.length then procs.set idx p else procs ++ [p])) ∧
    ((idx, st) ∈ s.states → st.active = false →
      (idx, st) ∈ (monitorPass now wex spawn s).states) := by
  refine ⟨?_, ?_, ?_, ?_, ?_⟩
  · intro h
    exact ⟨by simp [monitorSlotState, h], by simp [monitorSlotProcs, h]⟩
  · intro h
    cases hb : st.active with
    | false =>
      have hs : monitorSlotState now wexists spawnRes st = st := by
        simp [monitorSlotState, hb]
      rw [hs, hb] at h
      exact absurd h Bool.false_ne_true
    | true => rfl
  · intro h1 h2 h3 h4
    simp [monitorSlotState, h1, h2, h3, h4]
  · intro p h1 h2 h3 h4
    constructor
    · simp [monitorSlotState, h1, h2, h3, h4]
    · simp [monitorSlotProcs, h1, h2, h3, h4]
  · intro hmem hact
    have hs : monitorSlotState now (wex idx) (spawn idx) st = st := by
      simp [monitorSlotState, hact]
    have hmap : (idx, monitorSlotState now (wex idx) (spawn idx) st)
        ∈ (monitorPass now wex spawn s).states := by
      simp only [monitorPass]
      exact List.mem_map_of_mem _ hmem
    rwa [hs] at hmap

/-- C6 witness: the cases of the theorem at concrete inputs; slot 0 is
checked 6 ticks after last_check with no matching window. -/
theorem C6_recovery_witness :
    (monitorSlotState 6 false none (WindowState.mk "Profile 1" "u" false 0)
       = WindowState.mk "Profile 1" "u" false 0 ∧
     monitorSlotProcs 6 false none 0
       (WindowState.mk "Profile 1" "u" false 0) [7] = [7]) ∧
    (WindowState.mk "Profile 1" "u" true 0).active = true ∧
    (monitorSlotState 6 false none
       (WindowState.mk "Profile 1" "u" true 0)).active = false ∧
    (monitorSlotState 6 false (some 9) (WindowState.mk "Profile 1" "u" true 0)
       = { WindowState.mk "Profile 1" "u" true 0 with last_check := 6 } ∧
     monitorSlotProcs 6 false (some 9) 0
       (WindowState.mk "Profile 1" "u" true 0) [7]
       = (if 0 < ([7] : List Nat).length
          then ([7] : List Nat).set 0 9 else [7] ++ [9])) ∧
    (0, WindowState.mk "Profile 1" "u" false 0)
      ∈ (monitorPass 6 (fun _ => false) (fun _ => none)
          (MonState.mk [(0, WindowState.mk "Profile 1" "u" false 0)] [7])).states :=
  ⟨(C6_recovery 6 false none 0 (WindowState.mk "Profile 1" "u" false 0) [7]
      (fun _ => false) (fun _ => none) (MonState.mk [] [])).1 rfl,
   (C6_recovery 6 false (some 9) 0 (WindowState.mk "Profile 1" "u" true 0) [7]
      (fun _ => false) (fun _ => none) (MonState.mk [] [])).2.1 rfl,
   (C6_recovery 6 false none 0 (WindowState.mk "Profile 1" "u" true 0) [7]
      (fun _ => false) (fun _ => none) (MonState.mk [] [])).2.2.1
      rfl rfl (by decide) rfl,
   (C6_recovery 6 false (some 9) 0 (WindowState.mk "Profile 1" "u" true 0) [7]
      (fun _ => false) (fun _ => none) (MonState.mk [] [])).2.2.2.1
      9 rfl rfl (by decide) rfl,
   (C6_recovery 6 false none 0 (WindowState.mk "Profile 1" "u" false 0) [7]
      (fun _ => false) (fun _ => none)
      (MonState.mk [(0, WindowState.mk "Profile 1" "u" false 0)] [7])).2.2.2.2
      (by decide) rfl⟩

/-- C8 counterexample: a Profile with window_count 4 whose stored
chrome_profiles list is the single label A is consumed by
activate_profile without padding: the launch list has length 1, not 4, so
not every consuming operation restores the length invariant. -/
theorem C8_padding_cex :
    activateLabels (ProfileRec.mk "P" "" 4 ["A"] "" "auto") = ["A"] ∧
    (activateLabels (ProfileRec.mk "P" "" 4 ["A"] "" "auto")).length
      ≠ (ProfileRec.mk "P" "" 4 ["A"] "" "auto").num_windows := by
  constructor <;> decide

/-- C8 (amended): edit_profile pads a kept chrome_profiles list that is
shorter than the new window_count with the default naming scheme up to
exactly window_count (restoring length = window_count), and never
truncates (the stored list always extends the old one); activate_profile,
by contrast, substitutes the default naming only when the stored list is
empty (then yielding exactly window_count labels) and consumes a
non-empty list as is, without padding. -/
theorem C8_padding_amended :
    (∀ (old : List String) (n : Nat), old.length < n →
      editKeepLabels old n
        = old ++ (List.range' (old.length + 1) (n - old.length)).map
            (fun i => "Profile " ++ toString i) ∧
      (editKeepLabels old n).length = n) ∧
    (∀ (old : List String) (n : Nat),
      (editKeepLabels old n).take old.length = old) ∧
    (∀ p : ProfileRec, p.chrome_profiles = [] →
      activateLabels p = defaultProfiles p.num_windows ∧
      (activateLabels p).length = p.num_windows) ∧
    (∀ p : ProfileRec, p.chrome_profiles ≠ [] →
      activateLabels p = p.chrome_profiles) := by
  refine ⟨?_, ?_, ?_, ?_⟩
  · intro old n hlt
    refine ⟨rfl, ?_⟩
    simp [editKeepLabels]
    omega
  · intro old n
    exact List.take_left old _
  · intro p hp
    have h1 : activateLabels p = defaultProfiles p.num_windows := by
      simp [activateLabels, hp]
    refine ⟨h1, ?_⟩
    rw [h1]
    simp [defaultProfiles]
  · intro p hp
    have : p.chrome_profiles.isEmpty = false := by
      cases hc : p.chrome_profiles with
      | nil => exact absurd hc hp
      | cons a t => simp [hc]
    simp [activateLabels, this]

/-- C8 witness: padding on edit with one kept label and window_count 3;
no truncation; default substitution on an empty list; unpadded
consumption of a non-empty short list. -/
theorem C8_padding_amended_witness :
    (editKeepLabels ["A"] 3
       = ["A"] ++ (List.range' 2 2).map (fun i => "Profile " ++ toString i) ∧
     (editKeepLabels ["A"] 3).length = 3) ∧
    (editKeepLabels ["A", "B", "C"] 2).take 3 = ["A", "B", "C"] ∧
    (activateLabels (ProfileRec.mk "P" "" 2 [] "" "auto")
       = defaultProfiles 2 ∧
     (activateLabels (ProfileRec.mk "P" "" 2 [] "" "auto")).length = 2) ∧
    activateLabels (ProfileRec.mk "P" "" 4 ["X"] "" "auto") = ["X"] :=
  ⟨C8_padding_amended.1 ["A"] 3 (by decide),
   C8_padding_amended.2.1 ["A", "B", "C"] 2,
   C8_padding_amended.2.2.1 (ProfileRec.mk "P" "" 2 [] "" "auto") rfl,
   C8_padding_amended.2.2.2 (ProfileRec.mk "P" "" 4 ["X"] "" "auto")
     (by decide)⟩

/-- C9: loading settings is total over bad persistent state. On a missing
settings file, and equally on a file whose JSON fails to parse,
load_settings returns the fixed default record with num_windows 4, empty
streamer, quality auto and no memory limit, with no profile or layout
reference keys, and leaves current_profile and active_layout as they were
(unset at startup). -/
theorem C9_load_settings_defaults (profileIds : List String)
    (cur act : Option String) :
    load_settings SettingsFileState.missing profileIds none none
      = (default_settings, none, none) ∧
    load_settings SettingsFileState.invalidJson profileIds none none
      = (default_settings, none, none) ∧
    (load_settings SettingsFileState.missing profileIds cur act).2 = (cur, act) ∧
    (load_settings SettingsFileState.invalidJson profileIds cur act).2
      = (cur, act) ∧
    default_settings
      = SettingsDict.mk (some 4) (some "") (some "auto") (some none)
          none none :=
  ⟨rfl, rfl, rfl, rfl, rfl⟩
